import Mathlib

/-!
Verification of the diagnostic-reporting subsystem of the `wain-validate`
crate (`src/wain-validate/src/error.rs`).

The source buffer of an `Error` is a Rust `&str`: a sequence of Unicode
scalar values addressed by UTF-8 byte offsets.  We embed it as a
`List Char` together with byte-offset arithmetic via `Char.utf8Size`.
Rust string slicing `&s[off..]` panics when `off` is out of range or not
a character boundary; we model each slice by a function into `Option`,
returning `none` exactly where the Rust code would panic, so the rendering
function `Error.fmt` is `Option`-valued.
-/

namespace WainValidate

/-- Modelled from the spec: the value-type enumeration comes from the
external `wain_ast` crate, which is not part of this repository's sources;
the spec states that "type fields render via their canonical short name
(e.g., \"i32\", \"f64\")". -/
inductive ValType where
  | i32
  | i64
  | f32
  | f64
deriving DecidableEq

/-- Modelled from the spec: the canonical short name of a value type,
standing in for the external `Display` / `AsRef<str>` implementations. -/
def ValType.toStr : ValType → String
  | .i32 => "i32"
  | .i64 => "i64"
  | .f32 => "f32"
  | .f64 => "f64"

/-- The closed taxonomy of validation failures (`enum ErrorKind`).
Rust's `u32` / `usize` / `u8` payload fields are embedded as `Nat`:
they are only ever rendered in decimal, never computed with, so the
embedding is exact on the machine-representable range. -/
inductive ErrorKind where
  | IndexOutOfBounds (idx : Nat) (upper : Nat) (what : String)
  | MultipleReturnTypes (tys : List ValType)
  | TooFewFuncLocalsForParams (locals : Nat) (params : Nat)
  | ParamTypeMismatchWithLocal (idx : Nat) (param : ValType) (localTy : ValType)
  | UnknownImport (mod_name : String) (name : String)
  | TypeMismatch (op : String) (expected : ValType) (actual : ValType)
  | CtrlFrameEmpty (op : String) (frame_start : Nat) (idx_in_op_stack : Nat)
  | LabelStackEmpty (op : String)
  | SetImmutableGlobal (ty : ValType) (idx : Nat)
  | TooLargeAlign (align : Nat) (bits : Nat)

/-- `struct Error` — a kind, a borrowed source buffer, and a byte offset. -/
structure Error where
  kind : ErrorKind
  source : List Char
  offset : Nat

/-- Byte length of a character sequence under UTF-8 (`str::len`). -/
def utf8Len : List Char → Nat
  | [] => 0
  | c :: cs => c.utf8Size + utf8Len cs

/-- `struct Ordinal` together with its `Display` impl: renders `n`
followed by a suffix chosen by `n % 10`. -/
def Ordinal (n : Nat) : String :=
  match n % 10 with
  | 1 => toString n ++ "st"
  | 2 => toString n ++ "nd"
  | 3 => toString n ++ "rd"
  | _ => toString n ++ "th"

/-- The category line: the variant-specific sentence written by the
`match &self.kind` in `impl fmt::Display for Error`. -/
def categoryLine : ErrorKind → String
  | .IndexOutOfBounds idx upper what =>
      what ++ " index " ++ toString idx ++ " out of bounds 0 <= idx < " ++ toString upper
  | .MultipleReturnTypes tys =>
      "multiple return types are not allowed for now but got [" ++
        String.intercalate ", " (tys.map ValType.toStr) ++ "]"
  | .TooFewFuncLocalsForParams locals params =>
      "function has " ++ toString params ++ " params > " ++ toString locals ++ " locals"
  | .ParamTypeMismatchWithLocal idx param localTy =>
      "type " ++ param.toStr ++ " parameter " ++ Ordinal idx ++
        " does not match to type of respective local " ++ localTy.toStr
  | .UnknownImport mod_name name =>
      if mod_name ≠ "env" then
        "unknown module name '" ++ mod_name ++ "'. valid module name is currently only 'env'"
      else
        "no exported name '" ++ name ++ "' in module 'env'. currently only 'print' is exported"
  | .TypeMismatch op expected actual =>
      "type does not match at '" ++ op ++ "': expected " ++ expected.toStr ++
        " but got " ++ actual.toStr
  | .CtrlFrameEmpty op frame_start 0 =>
      "operand stack cannot be empty at '" ++ op ++
        "' instruction while validating instruction sequence starting at offset " ++
        toString frame_start
  | .CtrlFrameEmpty op frame_start idx_in_op_stack =>
      "empty control frame cannot be empty at '" ++ op ++
        "' instruction. the frame started at byte offset " ++ toString frame_start ++
        " and top of control frame is op_stack[" ++ toString idx_in_op_stack ++ "]"
  | .LabelStackEmpty op =>
      "label stack for control instructions is unexpectedly empty at '" ++ op ++ "' instruction"
  | .SetImmutableGlobal ty idx =>
      ty.toStr ++ " value cannot be set to immutable global variable " ++ toString idx
  | .TooLargeAlign align bits =>
      "align " ++ toString align ++ " must not be larger than " ++ toString bits ++ "bits / 8"

/-- Rust slice `&s[n..]` for a byte offset `n`: drops the first `n` bytes.
`none` models the panic when `n` is past the end or inside a multi-byte
character. -/
def dropBytes : List Char → Nat → Option (List Char)
  | cs, 0 => some cs
  | [], _ + 1 => none
  | c :: cs, n + 1 =>
      if c.utf8Size ≤ n + 1 then dropBytes cs (n + 1 - c.utf8Size) else none

/-- Rust slice `&s[..n]` for a byte offset `n`: keeps the first `n` bytes.
`none` models the panic when `n` is past the end or inside a multi-byte
character. -/
def takeBytes : List Char → Nat → Option (List Char)
  | _, 0 => some []
  | [], _ + 1 => none
  | c :: cs, n + 1 =>
      if c.utf8Size ≤ n + 1 then (takeBytes cs (n + 1 - c.utf8Size)).map (c :: ·) else none

/-- `source.find(['\n', '\r'].as_ref())`: the byte offset of the first
line feed or carriage return, if any. -/
def findNl : List Char → Option Nat
  | [] => none
  | c :: cs => if c == '\n' || c == '\r' then some 0 else (findNl cs).map (· + c.utf8Size)

/-- `impl fmt::Display for Error`: the category line followed by the
location clause.  Returns `none` exactly where the Rust code would
panic while slicing the source buffer. -/
def Error.fmt (e : Error) : Option String :=
  if e.offset = utf8Len e.source then
    some (categoryLine e.kind ++ " caused at byte offset " ++ toString e.offset ++
      " (end of input)")
  else
    match dropBytes e.source e.offset with
    | none => none
    | some src =>
      match takeBytes src ((findNl src).getD (utf8Len src)) with
      | none => none
      | some excerpt =>
        some (categoryLine e.kind ++ " caused at byte offset " ++ toString e.offset ++
          "\n\n ... " ++ excerpt.asString ++ "\n     ^\n     starts from here")

/-- A byte offset is a character boundary of the buffer when it is the
byte length of some prefix of the character sequence. -/
def IsCharBoundary (s : List Char) (off : Nat) : Prop :=
  ∃ k, utf8Len (s.take k) = off

/-! ## Helper lemmas about the byte-offset slicing primitives -/

theorem takeBytes_zero (cs : List Char) : takeBytes cs 0 = some [] := by
  cases cs <;> rfl

theorem dropBytes_zero (cs : List Char) : dropBytes cs 0 = some cs := by
  cases cs <;> rfl

theorem takeBytes_cons_add (c : Char) (cs : List Char) (k : Nat) :
    takeBytes (c :: cs) (c.utf8Size + k) = (takeBytes cs k).map (c :: ·) := by
  have hpos := Char.utf8Size_pos c
  obtain ⟨m, hm⟩ : ∃ m, c.utf8Size + k = m + 1 := ⟨c.utf8Size + k - 1, by omega⟩
  rw [hm]
  have hk : m + 1 - c.utf8Size = k := by omega
  simp only [takeBytes, if_pos (by omega : c.utf8Size ≤ m + 1), hk]

theorem dropBytes_cons_add (c : Char) (cs : List Char) (k : Nat) :
    dropBytes (c :: cs) (c.utf8Size + k) = dropBytes cs k := by
  have hpos := Char.utf8Size_pos c
  obtain ⟨m, hm⟩ : ∃ m, c.utf8Size + k = m + 1 := ⟨c.utf8Size + k - 1, by omega⟩
  rw [hm]
  have hk : m + 1 - c.utf8Size = k := by omega
  simp only [dropBytes, if_pos (by omega : c.utf8Size ≤ m + 1), hk]

/-- The second slice in the excerpt branch never fails: taking the bytes up
to the first line break (or the whole remainder) yields exactly the
characters before the first line feed or carriage return. -/
theorem takeBytes_findNl (s : List Char) :
    takeBytes s ((findNl s).getD (utf8Len s)) =
      some (s.takeWhile (fun c => !(c == '\n' || c == '\r'))) := by
  induction s with
  | nil => rfl
  | cons c cs ih =>
    by_cases hc : (c == '\n' || c == '\r') = true
    · have hor : c = '\n' ∨ c = '\r' := by simpa using hc
      have h1 : findNl (c :: cs) = some 0 := by
        rcases hor with h | h <;> subst h <;> rfl
      have hp : List.takeWhile (fun c => !(c == '\n' || c == '\r')) (c :: cs) = [] := by
        rcases hor with h | h <;> subst h <;> rfl
      rw [h1, Option.getD_some, takeBytes_zero, hp]
    · have hc' : (c == '\n' || c == '\r') = false := by
        simpa using hc
      have hn : c ≠ '\n' := by intro h; subst h; simp at hc'
      have hr : c ≠ '\r' := by intro h; subst h; simp at hc'
      have h1 : findNl (c :: cs) = (findNl cs).map (· + c.utf8Size) := by
        simp [findNl, hc']
      have h2 : ((findNl cs).map (· + c.utf8Size)).getD (utf8Len (c :: cs)) =
          c.utf8Size + (findNl cs).getD (utf8Len cs) := by
        cases h : findNl cs <;> simp [utf8Len, Nat.add_comm]
      rw [h1, h2, takeBytes_cons_add, ih]
      simp [List.takeWhile_cons, hc', hn, hr]

theorem dropBytes_of_boundary (s : List Char) (off : Nat) (h : IsCharBoundary s off) :
    (dropBytes s off).isSome = true := by
  obtain ⟨k, hk⟩ := h
  induction s generalizing k off with
  | nil =>
    simp only [List.take_nil, utf8Len] at hk
    subst hk
    simp [dropBytes_zero]
  | cons c cs ih =>
    cases k with
    | zero =>
      simp only [List.take_zero, utf8Len] at hk
      subst hk
      simp [dropBytes_zero]
    | succ k' =>
      simp only [List.take_succ_cons, utf8Len] at hk
      subst hk
      rw [dropBytes_cons_add]
      exact ih _ _ rfl

/-- Rendering succeeds on every in-bounds offset that is a character
boundary of the source buffer. -/
theorem fmt_isSome_of_boundary (e : Error) (_h1 : e.offset ≤ utf8Len e.source)
    (h2 : IsCharBoundary e.source e.offset) : (Error.fmt e).isSome = true := by
  unfold Error.fmt
  by_cases h : e.offset = utf8Len e.source
  · rw [if_pos h]
    rfl
  · rw [if_neg h]
    have hd := dropBytes_of_boundary e.source e.offset h2
    cases hds : dropBytes e.source e.offset with
    | none => rw [hds] at hd; simp at hd
    | some rest =>
      dsimp only
      rw [takeBytes_findNl]
      rfl

/-! ## Claim theorems -/

/-- Claim C1, counterexample: rendering `ParamTypeMismatchWithLocal`
with stored index 1, parameter type i32 and local type f64 does NOT
produce the category line with ordinal "2nd" that the spec's end-to-end
scenario promises. -/
theorem paramTypeMismatch_idx1_not_2nd :
    categoryLine (.ParamTypeMismatchWithLocal 1 .i32 .f64) ≠
      "type i32 parameter 2nd does not match to type of respective local f64" := by
  decide

/-- Claim C1, amended: rendering `ParamTypeMismatchWithLocal` with stored
0-based index 1, parameter type i32 and local type f64 produces the
category line with ordinal "1st", because the stored index is passed to
the ordinal helper unchanged, with no 1-based adjustment. -/
theorem paramTypeMismatch_idx1_renders_1st :
    categoryLine (.ParamTypeMismatchWithLocal 1 .i32 .f64) =
      "type i32 parameter 1st does not match to type of respective local f64" := by
  decide

/-- Claim C2: for every natural number `n`, the ordinal helper renders
`n` followed by a suffix chosen solely by `n % 10` — "st" for 1, "nd"
for 2, "rd" for 3, "th" otherwise — with no special-casing of 11, 12,
13, so 11 renders "11st", 12 renders "12nd", 13 renders "13rd", 21
renders "21st" and 100 renders "100th". -/
theorem ordinal_suffix_mod10 :
    (∀ n : Nat, Ordinal n = toString n ++
      (if n % 10 = 1 then "st" else if n % 10 = 2 then "nd"
       else if n % 10 = 3 then "rd" else "th")) ∧
    Ordinal 11 = "11st" ∧ Ordinal 12 = "12nd" ∧ Ordinal 13 = "13rd" ∧
    Ordinal 21 = "21st" ∧ Ordinal 100 = "100th" := by
  refine ⟨fun n => ?_, by decide, by decide, by decide, by decide, by decide⟩
  unfold Ordinal
  split <;> simp_all

/-- Claim C3: when the offset equals the byte length of the source
buffer, the rendered string is the category line followed by exactly
the "(end of input)" location clause, with no excerpt, caret line, or
"starts from here" line. -/
theorem fmt_end_of_input (e : Error) (h : e.offset = utf8Len e.source) :
    Error.fmt e = some (categoryLine e.kind ++ " caused at byte offset " ++
      toString e.offset ++ " (end of input)") := by
  unfold Error.fmt
  rw [if_pos h]

/-- Witness for C3 at a concrete error with the offset at the end of a
3-byte buffer. -/
theorem fmt_end_of_input_witness :
    Error.fmt ⟨.LabelStackEmpty "end", "abc".data, 3⟩ =
      some "label stack for control instructions is unexpectedly empty at 'end' instruction caused at byte offset 3 (end of input)" :=
  (fmt_end_of_input ⟨.LabelStackEmpty "end", "abc".data, 3⟩ (by decide)).trans (by decide)

/-- Claim C4: when the offset is strictly inside the source buffer and
is a valid slicing point (the drop of `offset` bytes succeeds, yielding
`rest`), the rendered string is the category line, the offset clause, a
blank line, then " ... " followed by exactly the characters of `rest` up
to but not including the first line feed or carriage return (or all of
`rest` if none exists), a caret line aligned under the excerpt's start,
and the line "starts from here". -/
theorem fmt_excerpt (e : Error) (rest : List Char)
    (h1 : e.offset < utf8Len e.source)
    (h2 : dropBytes e.source e.offset = some rest) :
    Error.fmt e = some (categoryLine e.kind ++ " caused at byte offset " ++
      toString e.offset ++ "\n\n ... " ++
      (rest.takeWhile (fun c => !(c == '\n' || c == '\r'))).asString ++
      "\n     ^\n     starts from here") := by
  unfold Error.fmt
  rw [if_neg (by omega), h2]
  dsimp only
  rw [takeBytes_findNl]

/-- Witness for C4 at a concrete error whose offset 1 points into
"ab\ncd": the excerpt is "b", stopping before the line feed. -/
theorem fmt_excerpt_witness :
    Error.fmt ⟨.LabelStackEmpty "br", "ab\ncd".data, 1⟩ =
      some "label stack for control instructions is unexpectedly empty at 'br' instruction caused at byte offset 1\n\n ... b\n     ^\n     starts from here" :=
  (fmt_excerpt ⟨.LabelStackEmpty "br", "ab\ncd".data, 1⟩ "b\ncd".data
    (by decide) (by decide)).trans (by decide)

/-- Claim C5: `CtrlFrameEmpty` with `idx_in_op_stack = 0` renders the
"operand stack cannot be empty" category line, and any nonzero index
renders the "empty control frame" line mentioning that exact index. -/
theorem ctrlFrameEmpty_two_messages :
    (∀ (op : String) (fs : Nat),
      categoryLine (.CtrlFrameEmpty op fs 0) =
        "operand stack cannot be empty at '" ++ op ++
          "' instruction while validating instruction sequence starting at offset " ++
          toString fs) ∧
    (∀ (op : String) (fs i : Nat), i ≠ 0 →
      categoryLine (.CtrlFrameEmpty op fs i) =
        "empty control frame cannot be empty at '" ++ op ++
          "' instruction. the frame started at byte offset " ++ toString fs ++
          " and top of control frame is op_stack[" ++ toString i ++ "]") := by
  refine ⟨fun op fs => rfl, fun op fs i hi => ?_⟩
  cases i with
  | zero => exact absurd rfl hi
  | succ m => rfl

/-- Witness for C5 at a nonzero stack index. -/
theorem ctrlFrameEmpty_two_messages_witness :
    categoryLine (.CtrlFrameEmpty "drop" 4 2) =
      "empty control frame cannot be empty at 'drop' instruction. the frame started at byte offset 4 and top of control frame is op_stack[2]" :=
  (ctrlFrameEmpty_two_messages.2 "drop" 4 2 (by decide)).trans (by decide)

/-- Claim C6: `UnknownImport` with module name "env" renders the
"no exported name" line depending only on the import name (two errors
differing only in the — necessarily equal — module name render
identically), while any other module name renders the "unknown module
name" line depending only on the module name (two errors differing only
in the import name render identically). -/
theorem unknownImport_messages :
    (∀ (mn n : String), mn = "env" →
      categoryLine (.UnknownImport mn n) =
        "no exported name '" ++ n ++ "' in module 'env'. currently only 'print' is exported") ∧
    (∀ (mn1 mn2 n : String), mn1 = "env" → mn2 = "env" →
      categoryLine (.UnknownImport mn1 n) = categoryLine (.UnknownImport mn2 n)) ∧
    (∀ (mn n : String), mn ≠ "env" →
      categoryLine (.UnknownImport mn n) =
        "unknown module name '" ++ mn ++ "'. valid module name is currently only 'env'") ∧
    (∀ (mn n1 n2 : String), mn ≠ "env" →
      categoryLine (.UnknownImport mn n1) = categoryLine (.UnknownImport mn n2)) := by
  refine ⟨fun mn n h => ?_, fun mn1 mn2 n h1 h2 => ?_, fun mn n h => ?_, fun mn n1 n2 h => ?_⟩
  · subst h; simp [categoryLine]
  · subst h1; subst h2; rfl
  · simp [categoryLine, h]
  · simp [categoryLine, h]

/-- Witness for C6: both branches at concrete module names. -/
theorem unknownImport_messages_witness :
    categoryLine (.UnknownImport "env" "foo") =
      "no exported name 'foo' in module 'env'. currently only 'print' is exported" :=
  (unknownImport_messages.1 "env" "foo" rfl).trans (by decide)

/-- Claim C7: `TooFewFuncLocalsForParams` renders "function has
{params} params > {locals} locals" — the parameter count is substituted
first even though the payload stores the local count first. -/
theorem tooFewFuncLocals_message (locals params : Nat) :
    categoryLine (.TooFewFuncLocalsForParams locals params) =
      "function has " ++ toString params ++ " params > " ++ toString locals ++ " locals" :=
  rfl

/-- Claim C8: rendering is a pure function of (kind, offset, source)
alone — two errors agreeing on those three fields render to the same
string, so rendering the same error any number of times yields
byte-identical output. -/
theorem fmt_pure (e1 e2 : Error) (hk : e1.kind = e2.kind)
    (ho : e1.offset = e2.offset) (hs : e1.source = e2.source) :
    Error.fmt e1 = Error.fmt e2 := by
  obtain ⟨k, s, o⟩ := e1
  obtain ⟨k', s', o'⟩ := e2
  dsimp only at hk ho hs
  subst hk
  subst ho
  subst hs
  rfl

/-- Witness for C8 at a concrete error value. -/
theorem fmt_pure_witness :
    Error.fmt ⟨.TooLargeAlign 8 32, "x".data, 1⟩ =
      Error.fmt ⟨.TooLargeAlign 8 32, "x".data, 1⟩ :=
  fmt_pure ⟨.TooLargeAlign 8 32, "x".data, 1⟩ ⟨.TooLargeAlign 8 32, "x".data, 1⟩ rfl rfl rfl

/-- Claim C9: rendering succeeds for every error whose offset is at most
the source's byte length AND lies on a UTF-8 character boundary; the
in-bounds condition alone is not enough — offset 1 inside the two-byte
character "é" is within bounds yet rendering fails at the excerpt
slice. -/
theorem fmt_total_on_char_boundaries :
    (∀ e : Error, e.offset ≤ utf8Len e.source → IsCharBoundary e.source e.offset →
      (Error.fmt e).isSome = true) ∧
    Error.fmt ⟨.LabelStackEmpty "x", "é".data, 1⟩ = none ∧
    1 < utf8Len ("é".data) := by
  exact ⟨fmt_isSome_of_boundary, by decide, by decide⟩

/-- Witness for C9: rendering succeeds at a concrete in-bounds character
boundary. -/
theorem fmt_total_on_char_boundaries_witness :
    (Error.fmt ⟨.TypeMismatch "i32.add" .i32 .f32, "ab".data, 1⟩).isSome = true :=
  fmt_total_on_char_boundaries.1 ⟨.TypeMismatch "i32.add" .i32 .f32, "ab".data, 1⟩
    (by decide) ⟨1, by decide⟩

/-- Claim C10: the renderer feeds the stored 0-based parameter index of
`ParamTypeMismatchWithLocal` directly to the ordinal helper without
adding 1, so index 0 is reported as "0th". -/
theorem paramTypeMismatch_uses_raw_index :
    (∀ (p l : ValType), categoryLine (.ParamTypeMismatchWithLocal 0 p l) =
      "type " ++ p.toStr ++ " parameter 0th does not match to type of respective local " ++
        l.toStr) ∧
    (∀ (idx : Nat) (p l : ValType), categoryLine (.ParamTypeMismatchWithLocal idx p l) =
      "type " ++ p.toStr ++ " parameter " ++ Ordinal idx ++
        " does not match to type of respective local " ++ l.toStr) := by
  refine ⟨fun p l => ?_, fun idx p l => rfl⟩
  cases p <;> cases l <;> decide

end WainValidate
